import Mathlib

/-!
Verification development for the telemetry fan-out core of the
easy-rep backend (`src/server.js` and `src/routes/performanceData.js`).

The embedding models:
  * JavaScript values for the optional numeric instrument readings
    (`JVal`: `undefined`, `null`, or a number), including JS truthiness
    and the `x || null` coercion used by the socket handler;
  * the in-memory `vehicleConnections` registry (`Map<vehicleId, Set<socketId>>`)
    as an association list of vehicle ids to lists of connection ids,
    with the exact mutation logic of the `subscribe-vehicle`,
    `unsubscribe-vehicle` and `disconnect` socket handlers;
  * the two ingest entry points: the socket `performance-data` handler
    (`server.js` lines 125-185) and the REST `POST /` handler
    (`routes/performanceData.js` lines 29-92), each returning the events
    emitted back to the caller and the list of broadcast sends performed.

Wall-clock time (`new Date().toISOString()`) is modelled as a `Nat`
parameter supplied at each point the code reads the clock; the persistence
gateway (supabase) is modelled by its outcome, passed as a parameter
(`none` / `dbError = true` for failure, the stored row for success).

One dynamic-typing fact of the source is load-bearing and embedded
explicitly: the only writer of `vehicleConnections` stores `socket.id`
strings (`server.js` line 100), while the REST broadcast loop reads
`ws.readyState` off those elements (`routes/performanceData.js` line 82)
as if they were `ws`-library WebSocket objects.  A JS string has no
`readyState` property, so that access yields `undefined` and the strict
comparison against `WebSocket.OPEN` (the number 1) is false for every
element; the loop's send is dead code.
-/

namespace EasyRep

/-- A JavaScript value occupying an optional numeric field:
`undefined` (field absent), `null`, or a number (modelled as `Int`). -/
inductive JVal where
  | undef : JVal
  | null : JVal
  | num : Int → JVal
  deriving DecidableEq, Repr

/-- JS truthiness for a `JVal`: `undefined`, `null` and `0` are falsy. -/
def JVal.truthy : JVal → Bool
  | .undef => false
  | .null => false
  | .num n => n != 0

/-- The JS expression `x || null`, as used by the socket `performance-data`
handler when building the row to insert. -/
def JVal.orNull (v : JVal) : JVal :=
  if v.truthy then v else .null

/-- Vehicle identifier (an opaque string / UUID in the source). -/
abbrev VehicleId := String

/-- Connection identifier (`socket.id` in the source). -/
abbrev ConnId := String

/-- The `vehicleConnections` map (`server.js` line 75): vehicle id to the
set of subscribed connection ids.  A JS `Map` preserves insertion order and
has unique keys; a JS `Set` preserves insertion order and has no duplicates.
We model both as lists; well-formedness (unique keys, duplicate-free sets)
is stated separately and proved invariant. -/
abbrev Registry := List (VehicleId × List ConnId)

/-- `vehicleConnections.get(v)` : first entry whose key is `v`. -/
def lookupConns : Registry → VehicleId → Option (List ConnId)
  | [], _ => none
  | (v', s) :: rest, v => if v' = v then some s else lookupConns rest v

/-- The subscriber set for `v`, or the empty set if `v` is untracked
(spec §4.1 `subscribersOf`). -/
def subscribersOf (r : Registry) (v : VehicleId) : List ConnId :=
  (lookupConns r v).getD []

/-- JS `Set.add`: no-op if the element is present, else append. -/
def addConn (s : List ConnId) (c : ConnId) : List ConnId :=
  if c ∈ s then s else s ++ [c]

/-- `Map.set` on a key already present: replace the value of every entry
for that key in place (a JS `Map` has a single such entry). -/
def updateVal (r : Registry) (v : VehicleId) (f : List ConnId → List ConnId) :
    Registry :=
  r.map (fun p => if p.1 = v then (p.1, f p.2) else p)

/-- The registry mutation of the `subscribe-vehicle` handler
(`server.js` lines 97-100): create the set for `v` if absent, then add
the socket id. -/
def subscribeReg (r : Registry) (v : VehicleId) (c : ConnId) : Registry :=
  match lookupConns r v with
  | some _ => updateVal r v (fun s => addConn s c)
  | none => r ++ [(v, [c])]

/-- The registry mutation of the `unsubscribe-vehicle` handler
(`server.js` lines 111-117): if `v` is tracked, delete the socket id from
its set and delete the key when the set becomes empty; otherwise nothing. -/
def unsubscribeReg (r : Registry) (v : VehicleId) (c : ConnId) : Registry :=
  match lookupConns r v with
  | none => r
  | some s =>
    let s' := s.erase c
    if s' = [] then r.filter (fun p => p.1 ≠ v)
    else updateVal r v (fun _ => s')

/-- One entry's fate in the `disconnect` handler's `forEach`
(`server.js` lines 192-199): if the departing socket id is in the set,
delete it, and drop the whole entry when the set becomes empty. -/
def dropConnEntry (c : ConnId) (p : VehicleId × List ConnId) :
    Option (VehicleId × List ConnId) :=
  if c ∈ p.2 then
    let s' := p.2.erase c
    if s' = [] then none else some (p.1, s')
  else some p

/-- The registry mutation of the `disconnect` handler (`server.js`
lines 188-200): remove the socket id from every vehicle's set, deleting
keys whose set becomes empty. -/
def dropConn (r : Registry) (c : ConnId) : Registry :=
  r.filterMap (dropConnEntry c)

/-- Events a socket handler emits back to its own client. -/
inductive SockEvent where
  | errorEvt : String → SockEvent
  | subscribed : VehicleId → SockEvent
  | unsubscribed : VehicleId → SockEvent
  | dataError : String → SockEvent
  | dataStored : VehicleId → Nat → SockEvent
  deriving DecidableEq, Repr

/-- The `subscribe-vehicle` handler (`server.js` lines 87-104): a falsy
(missing/empty) vehicle id is rejected with an `error` event and the
registry is untouched; otherwise the subscription is recorded and a
`subscribed` event is emitted.  Returns (new registry, events emitted to
the calling socket). -/
def handleSubscribe (r : Registry) (sid : ConnId) (v : VehicleId) :
    Registry × List SockEvent :=
  if v = "" then (r, [.errorEvt "Vehicle ID is required"])
  else (subscribeReg r v sid, [.subscribed v])

/-- The `unsubscribe-vehicle` handler (`server.js` lines 107-122): a falsy
vehicle id skips the whole body (no registry change, no event); otherwise
the registry mutation runs and an `unsubscribed` event is emitted. -/
def handleUnsubscribe (r : Registry) (sid : ConnId) (v : VehicleId) :
    Registry × List SockEvent :=
  if v = "" then (r, [])
  else (unsubscribeReg r v sid, [.unsubscribed v])

/-- The `disconnect` handler (`server.js` lines 188-200): registry effect
only, no events. -/
def handleDisconnect (r : Registry) (sid : ConnId) : Registry :=
  dropConn r sid

/-- An incoming telemetry sample, as the destructured request body /
socket message: a vehicle id (`""` models a missing/falsy one) and the
eight optional numeric readings.  `timestamp` is a field the client may
send; neither handler's destructuring reads it. -/
structure Sample where
  vehicle_id : String
  rpm : JVal
  speed : JVal
  batteryVoltage : JVal
  fuelTankLevel : JVal
  intakeAirTemp : JVal
  coolantTemp : JVal
  engineTemp : JVal
  fuelConsumption : JVal
  timestamp : JVal
  deriving DecidableEq, Repr

/-- The row the socket `performance-data` handler builds for insertion
(`server.js` lines 146-157): every reading passes through `x || null`,
and `timestamp` is unconditionally `new Date().toISOString()` (modelled
by the `now` parameter). -/
structure PerfRecord where
  vehicle_id : String
  rpm : JVal
  speed : JVal
  batteryVoltage : JVal
  fuelTankLevel : JVal
  intakeAirTemp : JVal
  coolantTemp : JVal
  engineTemp : JVal
  fuelConsumption : JVal
  timestamp : Nat
  deriving DecidableEq, Repr

/-- `performanceData` as built by the socket handler. -/
def socketPerformanceData (d : Sample) (now : Nat) : PerfRecord :=
  { vehicle_id := d.vehicle_id
    rpm := d.rpm.orNull
    speed := d.speed.orNull
    batteryVoltage := d.batteryVoltage.orNull
    fuelTankLevel := d.fuelTankLevel.orNull
    intakeAirTemp := d.intakeAirTemp.orNull
    coolantTemp := d.coolantTemp.orNull
    engineTemp := d.engineTemp.orNull
    fuelConsumption := d.fuelConsumption.orNull
    timestamp := now }

/-- Everything the socket `performance-data` handler does that is visible
outside: the events emitted to the sending socket, the messages pushed to
subscriber connections, and the row written to the database (if any). -/
structure SocketOutcome where
  emits : List SockEvent
  broadcasts : List (ConnId × PerfRecord)
  persisted : Option PerfRecord
  deriving DecidableEq, Repr

set_option linter.unusedVariables false in
/-- The socket `performance-data` handler (`server.js` lines 125-185).
`registry` is the current `vehicleConnections` map (the handler, as
written, never consults it); `dbError` is whether the supabase insert
reported an error.  On success the handler emits `data-stored` to the
sender only; it pushes nothing to any subscriber connection. -/
def handlePerformanceData (registry : Registry) (d : Sample) (now : Nat)
    (dbError : Bool) : SocketOutcome :=
  if d.vehicle_id = "" then
    { emits := [.dataError "Vehicle ID is required"]
      broadcasts := []
      persisted := none }
  else
    let row := socketPerformanceData d now
    if dbError then
      { emits := [.dataError "Failed to store performance data"]
        broadcasts := []
        persisted := none }
    else
      { emits := [.dataStored d.vehicle_id now]
        broadcasts := []
        persisted := some row }

/-- The row the REST `POST /` handler builds for insertion
(`routes/performanceData.js` lines 46-56): the destructured fields pass
through unchanged (no `|| null`, no timestamp field). -/
structure RestRow where
  vehicle_id : String
  rpm : JVal
  speed : JVal
  batteryVoltage : JVal
  fuelTankLevel : JVal
  intakeAirTemp : JVal
  coolantTemp : JVal
  engineTemp : JVal
  fuelConsumption : JVal
  deriving DecidableEq, Repr

/-- `performanceData` as built by the REST handler. -/
def restPerformanceData (d : Sample) : RestRow :=
  { vehicle_id := d.vehicle_id
    rpm := d.rpm
    speed := d.speed
    batteryVoltage := d.batteryVoltage
    fuelTankLevel := d.fuelTankLevel
    intakeAirTemp := d.intakeAirTemp
    coolantTemp := d.coolantTemp
    engineTemp := d.engineTemp
    fuelConsumption := d.fuelConsumption }

/-- The row as stored by the persistence gateway (the `data` returned by
`insert(...).select().single()`): the inserted fields plus the
database-assigned timestamp. -/
structure StoredRecord where
  row : RestRow
  timestamp : Nat
  deriving DecidableEq, Repr

/-- The broadcast message the REST handler sends to each open subscriber
(`routes/performanceData.js` lines 76-79): a timestamp taken from
`new Date().toISOString()` at broadcast time, spread together with the
original `performanceData` fields. -/
structure BroadcastMsg where
  timestamp : Nat
  row : RestRow
  deriving DecidableEq, Repr

/-- The HTTP response of the REST handler. -/
inductive RestResponse where
  | created : StoredRecord → RestResponse
  | errorResp : Nat → String → RestResponse
  deriving DecidableEq, Repr

/-- Everything the REST `POST /` handler does that is visible outside:
the HTTP response and the per-connection sends performed. -/
structure RestOutcome where
  response : RestResponse
  sends : List (ConnId × BroadcastMsg)
  deriving DecidableEq, Repr

/-- `WebSocket.OPEN` of the `ws` library required at the top of
`routes/performanceData.js`: the numeric ready-state `1`. -/
def WebSocketOPEN : Nat := 1

/-- The value of `ws.readyState` when `ws` is an element of a subscriber
set.  The registry's only writer is the `subscribe-vehicle` handler,
which adds `socket.id` strings (`server.js` line 100); a JS string has no
`readyState` property, so the property access evaluates to `undefined`
(modelled as `none`) for every element. -/
def readyStateOfEntry (_ws : ConnId) : Option Nat := none

/-- The broadcast-loop guard `ws.readyState === WebSocket.OPEN`
(`routes/performanceData.js` line 82): strict equality of `undefined`
against the number 1, hence false for every subscriber-set element. -/
def entryIsOpenWS (ws : ConnId) : Bool :=
  readyStateOfEntry ws == some WebSocketOPEN

/-- The REST `POST /` handler (`routes/performanceData.js` lines 29-92).
`dbResult` is the supabase insert outcome; `now` is the clock value read
when the broadcast message is built.  On database error the handler
returns a 500 response before any broadcast; on success it responds with
the stored record and runs the broadcast loop over the subscriber set of
the sample's vehicle, guarded per element by `entryIsOpenWS` — which, the
set holding `socket.id` strings, never passes, so the loop sends
nothing. -/
def handleRestPost (registry : Registry) (d : Sample)
    (dbResult : Option StoredRecord) (now : Nat) : RestOutcome :=
  let pd := restPerformanceData d
  match dbResult with
  | none =>
    { response := .errorResp 500 "Failed to store performance data"
      sends := [] }
  | some stored =>
    let conns := subscribersOf registry d.vehicle_id
    let msg : BroadcastMsg := { timestamp := now, row := pd }
    { response := .created stored
      sends := (conns.filter entryIsOpenWS).map (fun c => (c, msg)) }

/-! ### Registry well-formedness

A JS `Map` has unique keys and a JS `Set` holds no duplicates; these are
intrinsic to the data types of `vehicleConnections`, so they appear as
hypotheses on theorems quantifying over arbitrary registry states and are
shown to be preserved by every handler. -/

/-- The tracked vehicle keys, in map order. -/
def keys (r : Registry) : List VehicleId := r.map Prod.fst

/-- No tracked vehicle maps to an empty subscriber set (spec §3 invariant). -/
def noEmptyEntry (r : Registry) : Bool := r.all fun p => !p.2.isEmpty

/-- Unique keys, as a JS `Map` guarantees. -/
def KeysNodup (r : Registry) : Prop := (keys r).Nodup

/-- Duplicate-free subscriber sets, as a JS `Set` guarantees. -/
def SetsNodup (r : Registry) : Prop := ∀ p ∈ r, p.2.Nodup

theorem noEmptyEntry_iff (r : Registry) :
    noEmptyEntry r = true ↔ ∀ p ∈ r, p.2 ≠ [] := by
  simp [noEmptyEntry, List.all_eq_true, List.isEmpty_iff]

/-! ### Lookup lemmas -/

theorem lookupConns_cons (a : VehicleId) (t : List ConnId) (rest : Registry)
    (v : VehicleId) :
    lookupConns ((a, t) :: rest) v
      = if a = v then some t else lookupConns rest v := rfl

theorem updateVal_cons (a : VehicleId) (t : List ConnId) (rest : Registry)
    (v : VehicleId) (f : List ConnId → List ConnId) :
    updateVal ((a, t) :: rest) v f
      = (if a = v then (a, f t) else (a, t)) :: updateVal rest v f := by
  by_cases hv : a = v
  · simp only [updateVal, List.map_cons, if_pos hv]
  · simp only [updateVal, List.map_cons, if_neg hv]

theorem filter_ne_cons (a : VehicleId) (t : List ConnId) (rest : Registry)
    (v : VehicleId) :
    ((a, t) :: rest).filter (fun p => p.1 ≠ v)
      = if a = v then rest.filter (fun p => p.1 ≠ v)
        else (a, t) :: rest.filter (fun p => p.1 ≠ v) := by
  by_cases hv : a = v
  · simp [List.filter_cons, hv]
  · simp [List.filter_cons, hv]

theorem lookupConns_mem {r : Registry} {v : VehicleId} {s : List ConnId}
    (h : lookupConns r v = some s) : (v, s) ∈ r := by
  induction r with
  | nil => simp [lookupConns] at h
  | cons p rest ih =>
    obtain ⟨a, t⟩ := p
    rw [lookupConns_cons] at h
    by_cases hv : a = v
    · rw [if_pos hv] at h
      subst hv
      cases h
      exact List.mem_cons_self _ _
    · rw [if_neg hv] at h
      exact List.mem_cons_of_mem _ (ih h)

theorem lookupConns_eq_none_of_not_mem_keys {r : Registry} {v : VehicleId}
    (h : v ∉ keys r) : lookupConns r v = none := by
  induction r with
  | nil => rfl
  | cons p rest ih =>
    obtain ⟨a, t⟩ := p
    simp [keys] at h
    have ha : ¬ a = v := fun hav => h.1 hav.symm
    rw [lookupConns_cons, if_neg ha]
    exact ih (by simpa [keys] using h.2)

theorem lookupConns_append (r l : Registry) (v : VehicleId) :
    lookupConns (r ++ l) v =
      match lookupConns r v with
      | some s => some s
      | none => lookupConns l v := by
  induction r with
  | nil => simp [lookupConns]
  | cons p rest ih =>
    obtain ⟨a, t⟩ := p
    rw [List.cons_append, lookupConns_cons, lookupConns_cons]
    by_cases hv : a = v
    · rw [if_pos hv, if_pos hv]
    · rw [if_neg hv, if_neg hv, ih]

theorem keys_updateVal (r : Registry) (v : VehicleId)
    (f : List ConnId → List ConnId) : keys (updateVal r v f) = keys r := by
  induction r with
  | nil => rfl
  | cons p rest ih =>
    obtain ⟨a, t⟩ := p
    rw [updateVal_cons]
    by_cases hv : a = v
    · rw [if_pos hv]
      show a :: keys (updateVal rest v f) = a :: keys rest
      rw [ih]
    · rw [if_neg hv]
      show a :: keys (updateVal rest v f) = a :: keys rest
      rw [ih]

theorem lookupConns_updateVal_self (r : Registry) (v : VehicleId)
    (f : List ConnId → List ConnId) :
    lookupConns (updateVal r v f) v = (lookupConns r v).map f := by
  induction r with
  | nil => rfl
  | cons p rest ih =>
    obtain ⟨a, t⟩ := p
    rw [updateVal_cons, lookupConns_cons]
    by_cases hv : a = v
    · rw [if_pos hv, if_pos hv, lookupConns_cons, if_pos hv]
      rfl
    · rw [if_neg hv, if_neg hv, lookupConns_cons, if_neg hv, ih]

theorem lookupConns_updateVal_other (r : Registry) {v w : VehicleId}
    (f : List ConnId → List ConnId) (hw : w ≠ v) :
    lookupConns (updateVal r v f) w = lookupConns r w := by
  induction r with
  | nil => rfl
  | cons p rest ih =>
    obtain ⟨a, t⟩ := p
    rw [updateVal_cons, lookupConns_cons]
    by_cases hv : a = v
    · have haw : ¬ a = w := fun h => hw (h.symm.trans hv)
      rw [if_pos hv, lookupConns_cons, if_neg haw, if_neg haw, ih]
    · by_cases hpw : a = w
      · rw [if_neg hv, lookupConns_cons, if_pos hpw, if_pos hpw]
      · rw [if_neg hv, lookupConns_cons, if_neg hpw, if_neg hpw, ih]

theorem lookupConns_filter_ne_self (r : Registry) (v : VehicleId) :
    lookupConns (r.filter (fun p => p.1 ≠ v)) v = none := by
  induction r with
  | nil => rfl
  | cons p rest ih =>
    obtain ⟨a, t⟩ := p
    rw [filter_ne_cons]
    by_cases hv : a = v
    · rw [if_pos hv]
      exact ih
    · rw [if_neg hv, lookupConns_cons, if_neg hv]
      exact ih

theorem lookupConns_filter_ne_other (r : Registry) {v w : VehicleId}
    (hw : w ≠ v) :
    lookupConns (r.filter (fun p => p.1 ≠ v)) w = lookupConns r w := by
  induction r with
  | nil => rfl
  | cons p rest ih =>
    obtain ⟨a, t⟩ := p
    rw [filter_ne_cons, lookupConns_cons]
    by_cases hv : a = v
    · have haw : ¬ a = w := fun h => hw (h.symm.trans hv)
      rw [if_pos hv, if_neg haw, ih]
    · by_cases hpw : a = w
      · rw [if_neg hv, lookupConns_cons, if_pos hpw, if_pos hpw]
      · rw [if_neg hv, lookupConns_cons, if_neg hpw, if_neg hpw, ih]

/-! ### Operation characterizations -/

theorem mem_addConn_self (s : List ConnId) (c : ConnId) : c ∈ addConn s c := by
  unfold addConn
  by_cases hc : c ∈ s
  · rwa [if_pos hc]
  · rw [if_neg hc]
    exact List.mem_append_right s (List.mem_singleton.2 rfl)

theorem addConn_ne_nil (s : List ConnId) (c : ConnId) : addConn s c ≠ [] :=
  List.ne_nil_of_mem (mem_addConn_self s c)

theorem addConn_nodup {s : List ConnId} (c : ConnId) (h : s.Nodup) :
    (addConn s c).Nodup := by
  unfold addConn
  by_cases hc : c ∈ s
  · rwa [if_pos hc]
  · rw [if_neg hc]
    simpa [List.nodup_append, h] using hc

theorem subscribersOf_subscribeReg_self (r : Registry) (v : VehicleId)
    (c : ConnId) :
    subscribersOf (subscribeReg r v c) v = addConn (subscribersOf r v) c := by
  cases hl : lookupConns r v with
  | some s =>
    simp only [subscribeReg, hl]
    unfold subscribersOf
    rw [lookupConns_updateVal_self, hl]
    rfl
  | none =>
    simp only [subscribeReg, hl]
    unfold subscribersOf
    rw [lookupConns_append, hl]
    simp [lookupConns, addConn]

theorem subscribersOf_subscribeReg_other (r : Registry) {v w : VehicleId}
    (c : ConnId) (hw : w ≠ v) :
    subscribersOf (subscribeReg r v c) w = subscribersOf r w := by
  cases hl : lookupConns r v with
  | some s =>
    simp only [subscribeReg, hl]
    unfold subscribersOf
    rw [lookupConns_updateVal_other _ _ hw]
  | none =>
    simp only [subscribeReg, hl]
    unfold subscribersOf
    rw [lookupConns_append]
    cases hlw : lookupConns r w with
    | some t => rfl
    | none =>
      have hvw : ¬ v = w := fun h => hw h.symm
      simp [lookupConns, hvw]

theorem lookupConns_unsubscribeReg_self (r : Registry) (v : VehicleId)
    (c : ConnId) :
    lookupConns (unsubscribeReg r v c) v
      = match lookupConns r v with
        | none => none
        | some s => if s.erase c = [] then none else some (s.erase c) := by
  cases hl : lookupConns r v with
  | none => simp only [unsubscribeReg, hl]
  | some s =>
    simp only [unsubscribeReg, hl]
    by_cases he : s.erase c = []
    · rw [if_pos he, if_pos he]
      exact lookupConns_filter_ne_self r v
    · rw [if_neg he, if_neg he, lookupConns_updateVal_self, hl]
      rfl

theorem lookupConns_unsubscribeReg_other (r : Registry) {v w : VehicleId}
    (c : ConnId) (hw : w ≠ v) :
    lookupConns (unsubscribeReg r v c) w = lookupConns r w := by
  cases hl : lookupConns r v with
  | none => simp only [unsubscribeReg, hl]
  | some s =>
    simp only [unsubscribeReg, hl]
    by_cases he : s.erase c = []
    · rw [if_pos he]
      exact lookupConns_filter_ne_other r hw
    · rw [if_neg he]
      exact lookupConns_updateVal_other r _ hw

theorem dropConn_cons_none {c : ConnId} {p : VehicleId × List ConnId}
    (rest : Registry) (h : dropConnEntry c p = none) :
    dropConn (p :: rest) c = dropConn rest c := by
  unfold dropConn
  rw [List.filterMap_cons, h]

theorem dropConn_cons_some {c : ConnId} {p q : VehicleId × List ConnId}
    (rest : Registry) (h : dropConnEntry c p = some q) :
    dropConn (p :: rest) c = q :: dropConn rest c := by
  unfold dropConn
  rw [List.filterMap_cons, h]

theorem dropConnEntry_eq (c : ConnId) (a : VehicleId) (t : List ConnId) :
    dropConnEntry c (a, t)
      = if c ∈ t then (if t.erase c = [] then none else some (a, t.erase c))
        else some (a, t) := rfl

theorem dropConnEntry_some {c : ConnId} {p q : VehicleId × List ConnId}
    (h : dropConnEntry c p = some q) :
    q.1 = p.1 ∧ ((c ∈ p.2 ∧ q.2 = p.2.erase c ∧ p.2.erase c ≠ [])
      ∨ (c ∉ p.2 ∧ q.2 = p.2)) := by
  obtain ⟨a, t⟩ := p
  rw [dropConnEntry_eq] at h
  by_cases hc : c ∈ t
  · rw [if_pos hc] at h
    by_cases he : t.erase c = []
    · rw [if_pos he] at h
      cases h
    · rw [if_neg he] at h
      cases h
      exact ⟨rfl, Or.inl ⟨hc, rfl, he⟩⟩
  · rw [if_neg hc] at h
    cases h
    exact ⟨rfl, Or.inr ⟨hc, rfl⟩⟩

theorem mem_keys_of_mem_keys_dropConn {r : Registry} {c : ConnId}
    {w : VehicleId} (h : w ∈ keys (dropConn r c)) : w ∈ keys r := by
  unfold keys at h ⊢
  obtain ⟨q, hq, hqw⟩ := List.mem_map.1 h
  obtain ⟨p, hp, hpe⟩ := List.mem_filterMap.1 hq
  exact List.mem_map.2 ⟨p, hp, by rw [← (dropConnEntry_some hpe).1, hqw]⟩

theorem not_mem_subscribersOf_dropConn {r : Registry} (c : ConnId)
    (hs : SetsNodup r) (v : VehicleId) :
    c ∉ subscribersOf (dropConn r c) v := by
  intro hmem
  unfold subscribersOf at hmem
  cases hl : lookupConns (dropConn r c) v with
  | none => rw [hl] at hmem; exact (List.not_mem_nil c) hmem
  | some s =>
    rw [hl] at hmem
    obtain ⟨p, hp, hpe⟩ := List.mem_filterMap.1 (lookupConns_mem hl)
    obtain ⟨_, hcase⟩ := dropConnEntry_some hpe
    rcases hcase with ⟨_, hq, _⟩ | ⟨hc, hq⟩
    · exact ((hs p hp).not_mem_erase) (by rw [← hq]; exact hmem)
    · exact hc (by rw [← hq]; exact hmem)

theorem lookupConns_dropConn_eq_none {r : Registry} {v : VehicleId}
    {s : List ConnId} {c : ConnId} (hk : KeysNodup r)
    (hs : lookupConns r v = some s) (hc : c ∈ s) (he : s.erase c = []) :
    lookupConns (dropConn r c) v = none := by
  induction r with
  | nil => cases hs
  | cons p rest ih =>
    obtain ⟨a, t⟩ := p
    have hk2 : KeysNodup rest := (List.nodup_cons.1 hk).2
    have hknot : a ∉ keys rest := (List.nodup_cons.1 hk).1
    rw [lookupConns_cons] at hs
    by_cases hv : a = v
    · rw [if_pos hv] at hs
      cases hs
      subst hv
      have hnone : dropConnEntry c (a, s) = none := by
        rw [dropConnEntry_eq, if_pos hc, if_pos he]
      rw [dropConn_cons_none rest hnone]
      exact lookupConns_eq_none_of_not_mem_keys
        (fun hm => hknot (mem_keys_of_mem_keys_dropConn hm))
    · rw [if_neg hv] at hs
      by_cases hct : c ∈ t
      · by_cases het : t.erase c = []
        · have hnone : dropConnEntry c (a, t) = none := by
            rw [dropConnEntry_eq, if_pos hct, if_pos het]
          rw [dropConn_cons_none rest hnone]
          exact ih hk2 hs
        · have hsome : dropConnEntry c (a, t) = some (a, t.erase c) := by
            rw [dropConnEntry_eq, if_pos hct, if_neg het]
          rw [dropConn_cons_some rest hsome, lookupConns_cons, if_neg hv]
          exact ih hk2 hs
      · have hsome : dropConnEntry c (a, t) = some (a, t) := by
          rw [dropConnEntry_eq, if_neg hct]
        rw [dropConn_cons_some rest hsome, lookupConns_cons, if_neg hv]
        exact ih hk2 hs

/-! ### Invariant preservation -/

theorem noEmpty_subscribeReg {r : Registry} (v : VehicleId) (c : ConnId)
    (h : ∀ p ∈ r, p.2 ≠ []) : ∀ p ∈ subscribeReg r v c, p.2 ≠ [] := by
  intro p hp
  cases hl : lookupConns r v with
  | some s =>
    simp only [subscribeReg, hl, updateVal] at hp
    obtain ⟨q, hq, hqe⟩ := List.mem_map.1 hp
    by_cases hv : q.1 = v
    · rw [if_pos hv] at hqe
      rw [← hqe]
      exact addConn_ne_nil _ _
    · rw [if_neg hv] at hqe
      rw [← hqe]
      exact h q hq
  | none =>
    simp only [subscribeReg, hl] at hp
    rcases List.mem_append.1 hp with hm | hm
    · exact h p hm
    · rw [List.mem_singleton.1 hm]
      simp

theorem noEmpty_unsubscribeReg {r : Registry} (v : VehicleId) (c : ConnId)
    (h : ∀ p ∈ r, p.2 ≠ []) : ∀ p ∈ unsubscribeReg r v c, p.2 ≠ [] := by
  intro p hp
  cases hl : lookupConns r v with
  | none =>
    simp only [unsubscribeReg, hl] at hp
    exact h p hp
  | some s =>
    simp only [unsubscribeReg, hl] at hp
    by_cases he : s.erase c = []
    · rw [if_pos he] at hp
      exact h p (List.mem_of_mem_filter hp)
    · rw [if_neg he] at hp
      simp only [updateVal] at hp
      obtain ⟨q, hq, hqe⟩ := List.mem_map.1 hp
      by_cases hv : q.1 = v
      · rw [if_pos hv] at hqe
        rw [← hqe]
        exact he
      · rw [if_neg hv] at hqe
        rw [← hqe]
        exact h q hq

theorem noEmpty_dropConn {r : Registry} (c : ConnId)
    (h : ∀ p ∈ r, p.2 ≠ []) : ∀ p ∈ dropConn r c, p.2 ≠ [] := by
  intro p hp
  obtain ⟨q, hq, hqe⟩ := List.mem_filterMap.1 hp
  obtain ⟨_, hcase⟩ := dropConnEntry_some hqe
  rcases hcase with ⟨_, hq2, hne⟩ | ⟨_, hq2⟩
  · rw [hq2]
    exact hne
  · rw [hq2]
    exact h q hq

theorem setsNodup_subscribeReg {r : Registry} (v : VehicleId) (c : ConnId)
    (hs : SetsNodup r) : SetsNodup (subscribeReg r v c) := by
  intro p hp
  cases hl : lookupConns r v with
  | some s =>
    simp only [subscribeReg, hl, updateVal] at hp
    obtain ⟨q, hq, hqe⟩ := List.mem_map.1 hp
    by_cases hv : q.1 = v
    · rw [if_pos hv] at hqe
      rw [← hqe]
      exact addConn_nodup c (hs q hq)
    · rw [if_neg hv] at hqe
      rw [← hqe]
      exact hs q hq
  | none =>
    simp only [subscribeReg, hl] at hp
    rcases List.mem_append.1 hp with hm | hm
    · exact hs p hm
    · rw [List.mem_singleton.1 hm]
      simp

theorem setsNodup_unsubscribeReg {r : Registry} (v : VehicleId) (c : ConnId)
    (hs : SetsNodup r) : SetsNodup (unsubscribeReg r v c) := by
  intro p hp
  cases hl : lookupConns r v with
  | none =>
    simp only [unsubscribeReg, hl] at hp
    exact hs p hp
  | some s =>
    simp only [unsubscribeReg, hl] at hp
    by_cases he : s.erase c = []
    · rw [if_pos he] at hp
      exact hs p (List.mem_of_mem_filter hp)
    · rw [if_neg he] at hp
      simp only [updateVal] at hp
      obtain ⟨q, hq, hqe⟩ := List.mem_map.1 hp
      by_cases hv : q.1 = v
      · rw [if_pos hv] at hqe
        rw [← hqe]
        exact (hs _ (lookupConns_mem hl)).erase c
      · rw [if_neg hv] at hqe
        rw [← hqe]
        exact hs q hq

/-! ### Connection-lifecycle events -/

/-- A registry-mutating connection event, as dispatched by the socket
layer (`io.on('connection')` handlers in `server.js`). -/
inductive RegEvent where
  | subscribeVehicle : ConnId → VehicleId → RegEvent
  | unsubscribeVehicle : ConnId → VehicleId → RegEvent
  | disconnect : ConnId → RegEvent
  deriving DecidableEq, Repr

/-- The registry effect of one event, through its handler. -/
def applyEvent (r : Registry) : RegEvent → Registry
  | .subscribeVehicle sid v => (handleSubscribe r sid v).1
  | .unsubscribeVehicle sid v => (handleUnsubscribe r sid v).1
  | .disconnect sid => handleDisconnect r sid

/-- The registry after a sequence of events has been dispatched. -/
def applyEvents (r : Registry) (es : List RegEvent) : Registry :=
  es.foldl applyEvent r

theorem noEmpty_applyEvent {r : Registry} (e : RegEvent)
    (h : ∀ p ∈ r, p.2 ≠ []) : ∀ p ∈ applyEvent r e, p.2 ≠ [] := by
  cases e with
  | subscribeVehicle sid v =>
    by_cases hv : v = ""
    · simpa [applyEvent, handleSubscribe, hv] using h
    · simpa [applyEvent, handleSubscribe, hv] using noEmpty_subscribeReg v sid h
  | unsubscribeVehicle sid v =>
    by_cases hv : v = ""
    · simpa [applyEvent, handleUnsubscribe, hv] using h
    · simpa [applyEvent, handleUnsubscribe, hv] using noEmpty_unsubscribeReg v sid h
  | disconnect sid =>
    simpa [applyEvent, handleDisconnect] using noEmpty_dropConn sid h

/-! ### Membership observer and further helper lemmas -/

/-- Is connection `c` currently subscribed to vehicle `v`?  (The spec's
per-pair state: `true` = subscribed, `false` = unsubscribed.) -/
def isMember (r : Registry) (v : VehicleId) (c : ConnId) : Bool :=
  decide (c ∈ subscribersOf r v)

theorem isMember_subscribeReg (r : Registry) (v : VehicleId) (c : ConnId) :
    isMember (subscribeReg r v c) v c = true := by
  unfold isMember
  rw [decide_eq_true_eq, subscribersOf_subscribeReg_self]
  exact mem_addConn_self _ _

theorem subscribersOf_nodup {r : Registry} (hs : SetsNodup r)
    (v : VehicleId) : (subscribersOf r v).Nodup := by
  unfold subscribersOf
  cases hl : lookupConns r v with
  | none => simp
  | some s => simpa using hs _ (lookupConns_mem hl)

theorem isMember_unsubscribeReg (r : Registry) (v : VehicleId) (c : ConnId)
    (hs : SetsNodup r) : isMember (unsubscribeReg r v c) v c = false := by
  unfold isMember subscribersOf
  rw [decide_eq_false_iff_not]
  rw [lookupConns_unsubscribeReg_self]
  cases hl : lookupConns r v with
  | none => exact List.not_mem_nil c
  | some s =>
    by_cases he : s.erase c = []
    · show c ∉ ((if s.erase c = [] then none else some (s.erase c)).getD [])
      rw [if_pos he]
      exact List.not_mem_nil c
    · show c ∉ ((if s.erase c = [] then none else some (s.erase c)).getD [])
      rw [if_neg he]
      exact (hs _ (lookupConns_mem hl)).not_mem_erase

theorem updateVal_of_not_mem_keys {r : Registry} {v : VehicleId}
    (f : List ConnId → List ConnId) (h : v ∉ keys r) : updateVal r v f = r := by
  induction r with
  | nil => rfl
  | cons p rest ih =>
    obtain ⟨a, t⟩ := p
    simp [keys] at h
    have ha : ¬ a = v := fun hav => h.1 hav.symm
    rw [updateVal_cons, if_neg ha]
    rw [ih (by simpa [keys] using h.2)]

theorem updateVal_const_self {r : Registry} {v : VehicleId} {s : List ConnId}
    (hk : KeysNodup r) (hl : lookupConns r v = some s) :
    updateVal r v (fun _ => s) = r := by
  induction r with
  | nil => rfl
  | cons p rest ih =>
    obtain ⟨a, t⟩ := p
    have hk2 : KeysNodup rest := (List.nodup_cons.1 hk).2
    have hknot : a ∉ keys rest := (List.nodup_cons.1 hk).1
    rw [lookupConns_cons] at hl
    rw [updateVal_cons]
    by_cases hv : a = v
    · rw [if_pos hv] at hl ⊢
      cases hl
      rw [updateVal_of_not_mem_keys _ (by rw [← hv]; exact hknot)]
    · rw [if_neg hv] at hl ⊢
      rw [ih hk2 hl]

theorem socket_broadcasts_nil (r : Registry) (d : Sample) (now : Nat)
    (e : Bool) : (handlePerformanceData r d now e).broadcasts = [] := by
  unfold handlePerformanceData
  by_cases h1 : d.vehicle_id = ""
  · rw [if_pos h1]
  · rw [if_neg h1]
    cases e
    · rfl
    · rfl

theorem entryIsOpenWS_false (ws : ConnId) : entryIsOpenWS ws = false := rfl

theorem filter_entryIsOpenWS (l : List ConnId) :
    l.filter entryIsOpenWS = [] := by
  induction l with
  | nil => rfl
  | cons a rest ih => simp [List.filter_cons, entryIsOpenWS_false, ih]

theorem restPost_sends_eq (r : Registry) (d : Sample) (st : StoredRecord)
    (now : Nat) :
    (handleRestPost r d (some st) now).sends
      = ((subscribersOf r d.vehicle_id).filter entryIsOpenWS).map
          (fun c => (c, ({ timestamp := now, row := restPerformanceData d } :
            BroadcastMsg))) := rfl

theorem restPost_sends_nil (r : Registry) (d : Sample) (st : StoredRecord)
    (now : Nat) : (handleRestPost r d (some st) now).sends = [] := by
  rw [restPost_sends_eq, filter_entryIsOpenWS]
  rfl

/-! ### Concrete instances used by counterexamples and witnesses -/

/-- A concrete telemetry sample for vehicle `"v1"`. -/
def sampleA : Sample :=
  { vehicle_id := "v1"
    rpm := .num 2500
    speed := .num 80
    batteryVoltage := .undef
    fuelTankLevel := .null
    intakeAirTemp := .undef
    coolantTemp := .num 90
    engineTemp := .undef
    fuelConsumption := .undef
    timestamp := .undef }

/-- A stored row for `sampleA` whose database-assigned timestamp is `0`. -/
def storedA : StoredRecord :=
  { row := restPerformanceData sampleA, timestamp := 0 }

/-! ### Claims -/

/-- C1, as stated, is false for both entry points: with `"c1"` subscribed
to `"v1"`, a successfully persisted ingest for `"v1"` delivers zero
messages to `"c1"`, not exactly one.  Via REST the persistence succeeds
(the response is the created record) yet the send list is empty — the
subscriber-set elements are `socket.id` strings failing the `readyState`
check; via the socket handler the sample is persisted yet no broadcast is
performed at all. -/
theorem c1_counterexample :
    (handleRestPost [("v1", ["c1"])] sampleA (some storedA) 5).response
        = RestResponse.created storedA
    ∧ ((handleRestPost [("v1", ["c1"])] sampleA (some storedA) 5).sends.map
        Prod.fst).count "c1" = 0
    ∧ (handlePerformanceData [("v1", ["c1"])] sampleA 5 false).persisted
        = some (socketPerformanceData sampleA 5)
    ∧ ((handlePerformanceData [("v1", ["c1"])] sampleA 5 false).broadcasts.map
        Prod.fst).count "c1" = 0 := by
  refine ⟨rfl, rfl, rfl, rfl⟩

/-- C1 (amended): no ingest, through either entry point, delivers a
broadcast message to any connection.  The REST handler's broadcast loop
sends nothing because every subscriber-set element is a `socket.id`
string whose `readyState` is `undefined`, failing the open check; the
socket `performance-data` handler has no broadcast step at all and only
acknowledges the sender.  In particular each subscribed connection
receives zero messages per ingest, as does every other connection. -/
theorem c1_no_fanout (r : Registry) (d : Sample)
    (db : Option StoredRecord) (now : Nat) (r2 : Registry) (d2 : Sample)
    (now2 : Nat) (e : Bool) :
    (handleRestPost r d db now).sends = []
    ∧ (handlePerformanceData r2 d2 now2 e).broadcasts = [] := by
  constructor
  · cases db with
    | none => rfl
    | some st => exact restPost_sends_nil r d st now
  · exact socket_broadcasts_nil r2 d2 now2 e

/-- C2: on persistence failure, both ingest entry points respond to the
caller with a failure indication and perform zero broadcast sends,
whatever the registry holds: the REST handler returns the 500 error
response with an empty send list, and the socket handler emits a
`data-error` event, persists nothing and broadcasts nothing. -/
theorem c2_failure_atomicity (r : Registry)
    (d : Sample) (now : Nat) (r2 : Registry) (d2 : Sample) (now2 : Nat) :
    (handleRestPost r d none now).sends = []
    ∧ (handleRestPost r d none now).response
        = RestResponse.errorResp 500 "Failed to store performance data"
    ∧ (handlePerformanceData r2 d2 now2 true).broadcasts = []
    ∧ (handlePerformanceData r2 d2 now2 true).persisted = none
    ∧ ∃ m, (handlePerformanceData r2 d2 now2 true).emits
        = [SockEvent.dataError m] := by
  refine ⟨rfl, rfl, socket_broadcasts_nil r2 d2 now2 true, ?_, ?_⟩
  · unfold handlePerformanceData
    by_cases h1 : d2.vehicle_id = ""
    · rw [if_pos h1]
    · rw [if_neg h1]
      rfl
  · unfold handlePerformanceData
    by_cases h1 : d2.vehicle_id = ""
    · rw [if_pos h1]
      exact ⟨"Vehicle ID is required", rfl⟩
    · rw [if_neg h1]
      exact ⟨"Failed to store performance data", rfl⟩

/-- C3, as stated, is false: with `"c1"` subscribed to `"v1"` and the
insert succeeding (the handler responds with the created record), no
message is pushed to `"c1"` at all — so no connection receives anything
carrying the persisted timestamp.  The subscriber-set element is the
`socket.id` string `"c1"`, whose `readyState` is `undefined`, so the
open check of the broadcast loop fails. -/
theorem c3_counterexample :
    (handleRestPost [("v1", ["c1"])] sampleA (some storedA) 1).response
        = RestResponse.created storedA
    ∧ subscribersOf [("v1", ["c1"])] sampleA.vehicle_id = ["c1"]
    ∧ (handleRestPost [("v1", ["c1"])] sampleA (some storedA) 1).sends
        = [] := by
  refine ⟨rfl, rfl, ?_⟩
  exact restPost_sends_nil _ _ _ _

/-- C3 (amended): for every successfully persisted REST ingest, no
message is pushed to any subscribed connection, whatever its actual
transport state: every element of the subscriber set fails the
open-connection test (the set holds `socket.id` strings, whose
`readyState` is `undefined`), so each subscriber is skipped with no send
attempted and no error raised — the handler still answers the caller
with the created record. -/
theorem c3_rest_pushes_nothing (r : Registry) (d : Sample)
    (st : StoredRecord) (now : Nat) :
    (subscribersOf r d.vehicle_id).filter entryIsOpenWS = []
    ∧ (handleRestPost r d (some st) now).sends = []
    ∧ (handleRestPost r d (some st) now).response
        = RestResponse.created st := by
  exact ⟨filter_entryIsOpenWS _, restPost_sends_nil r d st now, rfl⟩

/-- C4: after every sequence of subscribe / unsubscribe / disconnect
events starting from the empty registry, no tracked vehicle key maps to
an empty subscriber set (a key is present only while its set is
non-empty). -/
theorem c4_registry_invariant (es : List RegEvent) :
    noEmptyEntry (applyEvents [] es) = true := by
  rw [noEmptyEntry_iff]
  have main : ∀ (r : Registry), (∀ p ∈ r, p.2 ≠ []) →
      ∀ p ∈ applyEvents r es, p.2 ≠ [] := by
    induction es with
    | nil => intro r h; exact h
    | cons e rest ih =>
      intro r h
      exact ih _ (noEmpty_applyEvent e h)
  exact main [] (fun p hp => absurd hp (List.not_mem_nil p))

/-- C5: after the disconnect handler drops connection `c`, no vehicle's
subscriber set contains `c` any more, and every vehicle whose set became
empty by that removal is gone from the tracked keys. -/
theorem c5_disconnect_cleanup (r : Registry) (c : ConnId)
    (hk : KeysNodup r) (hs : SetsNodup r) :
    (∀ v : VehicleId, c ∉ subscribersOf (handleDisconnect r c) v)
    ∧ (∀ (v : VehicleId) (s : List ConnId), lookupConns r v = some s →
        c ∈ s → s.erase c = [] →
        lookupConns (handleDisconnect r c) v = none) := by
  constructor
  · intro v
    exact not_mem_subscribersOf_dropConn c hs v
  · intro v s hls hc he
    exact lookupConns_dropConn_eq_none hk hls hc he

/-- C5 witness: dropping `"c1"` removes it from the set of `"v2"` and
removes the key `"v1"` entirely, whose set `["c1"]` became empty. -/
theorem c5_witness :
    ("c1" ∉ subscribersOf
        (handleDisconnect [("v1", ["c1"]), ("v2", ["c1", "c2"])] "c1") "v2")
    ∧ lookupConns
        (handleDisconnect [("v1", ["c1"]), ("v2", ["c1", "c2"])] "c1") "v1"
      = none := by
  have h := c5_disconnect_cleanup [("v1", ["c1"]), ("v2", ["c1", "c2"])]
    "c1" (by unfold KeysNodup; decide) (by unfold SetsNodup; decide)
  exact ⟨h.1 "v2", h.2 "v1" ["c1"] rfl (by decide) rfl⟩

/-- The two §4.1 registry calls for a fixed (vehicle, connection) pair. -/
inductive PairCall where
  | subscribeCall : PairCall
  | unsubscribeCall : PairCall
  deriving DecidableEq, Repr

/-- Apply one call for the fixed pair `(v, c)` to the registry. -/
def applyPairCall (v : VehicleId) (c : ConnId) (r : Registry) :
    PairCall → Registry
  | .subscribeCall => subscribeReg r v c
  | .unsubscribeCall => unsubscribeReg r v c

theorem setsNodup_applyPairCall (v : VehicleId) (c : ConnId) (r : Registry)
    (hs : SetsNodup r) (e : PairCall) :
    SetsNodup (applyPairCall v c r e) := by
  cases e
  · exact setsNodup_subscribeReg v c hs
  · exact setsNodup_unsubscribeReg v c hs

theorem isMember_applyPairCall (v : VehicleId) (c : ConnId) (r : Registry)
    (hs : SetsNodup r) (e : PairCall) :
    isMember (applyPairCall v c r e) v c = (e == PairCall.subscribeCall) := by
  cases e
  · exact isMember_subscribeReg r v c
  · exact isMember_unsubscribeReg r v c hs

theorem lastCall_wins_aux (v : VehicleId) (c : ConnId)
    (calls : List PairCall) :
    ∀ (r : Registry), SetsNodup r → ∀ e : PairCall,
      isMember ((e :: calls).foldl (applyPairCall v c) r) v c
        = ((e :: calls).getLast (List.cons_ne_nil e calls)
            == PairCall.subscribeCall) := by
  induction calls with
  | nil =>
    intro r hs e
    simpa using isMember_applyPairCall v c r hs e
  | cons e2 rest ih =>
    intro r hs e
    rw [List.getLast_cons_cons]
    exact ih (applyPairCall v c r e) (setsNodup_applyPairCall v c r hs e) e2

/-- C6: for every non-empty sequence of subscribe/unsubscribe calls for a
fixed (vehicle, connection) pair, applied to any registry state, the final
membership of the pair equals the effect of the last call alone (so a
repeated subscribe is idempotent for membership and a redundant
unsubscribe leaves membership unchanged). -/
theorem c6_last_call_wins (v : VehicleId) (c : ConnId) (r : Registry)
    (hs : SetsNodup r) (calls : List PairCall) (hne : calls ≠ []) :
    isMember (calls.foldl (applyPairCall v c) r) v c
      = (calls.getLast hne == PairCall.subscribeCall) := by
  cases calls with
  | nil => exact absurd rfl hne
  | cons e rest => exact lastCall_wins_aux v c rest r hs e

/-- C6 witness: subscribe twice then unsubscribe, from the empty
registry: the pair ends up not subscribed, the effect of the last call. -/
theorem c6_witness :
    isMember ([PairCall.subscribeCall, PairCall.subscribeCall,
        PairCall.unsubscribeCall].foldl (applyPairCall "v1" "c1") [])
      "v1" "c1" = false := by
  have h := c6_last_call_wins "v1" "c1" [] (by unfold SetsNodup; decide)
    [PairCall.subscribeCall, PairCall.subscribeCall,
      PairCall.unsubscribeCall] (by decide)
  rw [h]
  rfl

/-- C7: `unsubscribe(v, c)` removes `c` from the set for `v`, removes the
key entirely when that set becomes empty, and is a no-op — not an error,
registry left exactly unchanged — when the pair was not subscribed. -/
theorem c7_unsubscribe_contract (r : Registry) (v : VehicleId) (c : ConnId)
    (hk : KeysNodup r) (hs : SetsNodup r) (hne : noEmptyEntry r = true) :
    isMember (unsubscribeReg r v c) v c = false
    ∧ (∀ s, lookupConns r v = some s → s.erase c = [] →
        lookupConns (unsubscribeReg r v c) v = none)
    ∧ (isMember r v c = false → unsubscribeReg r v c = r) := by
  refine ⟨isMember_unsubscribeReg r v c hs, ?_, ?_⟩
  · intro s hls he
    rw [lookupConns_unsubscribeReg_self, hls]
    show (if s.erase c = [] then none else some (s.erase c)) = none
    rw [if_pos he]
  · intro hm
    unfold isMember at hm
    rw [decide_eq_false_iff_not] at hm
    unfold subscribersOf at hm
    cases hls : lookupConns r v with
    | none => simp only [unsubscribeReg, hls]
    | some s =>
      rw [hls] at hm
      have hcs : c ∉ s := hm
      have hse : s.erase c = s := List.erase_of_not_mem hcs
      have hsne : s ≠ [] := (noEmptyEntry_iff r).1 hne _ (lookupConns_mem hls)
      simp only [unsubscribeReg, hls]
      rw [hse, if_neg hsne]
      exact updateVal_const_self hk hls

/-- C7 witness: unsubscribing `"c1"` from `"v1"` leaves it not a member;
unsubscribing the never-subscribed `"c9"` leaves the registry unchanged. -/
theorem c7_witness :
    isMember (unsubscribeReg [("v1", ["c1", "c2"])] "v1" "c1") "v1" "c1"
        = false
    ∧ unsubscribeReg [("v1", ["c1", "c2"])] "v1" "c9"
        = [("v1", ["c1", "c2"])] := by
  have h1 := c7_unsubscribe_contract [("v1", ["c1", "c2"])] "v1" "c1"
    (by unfold KeysNodup; decide) (by unfold SetsNodup; decide) (by decide)
  have h2 := c7_unsubscribe_contract [("v1", ["c1", "c2"])] "v1" "c9"
    (by unfold KeysNodup; decide) (by unfold SetsNodup; decide) (by decide)
  exact ⟨h1.1, h2.2.2 (by decide)⟩

/-- A concrete sample whose `rpm` reading is present and equal to `0`. -/
def sampleZero : Sample :=
  { vehicle_id := "v1"
    rpm := .num 0
    speed := .num 80
    batteryVoltage := .undef
    fuelTankLevel := .undef
    intakeAirTemp := .undef
    coolantTemp := .undef
    engineTemp := .undef
    fuelConsumption := .undef
    timestamp := .undef }

/-- C8, as stated, is false for the socket entry point: a present reading
of `0` (here `rpm`) is falsy in JavaScript, so `rpm || null` stores
`null` instead of the original value `0`. -/
theorem c8_counterexample :
    sampleZero.rpm = JVal.num 0
    ∧ (handlePerformanceData [] sampleZero 3 false).persisted
        = some (socketPerformanceData sampleZero 3)
    ∧ (socketPerformanceData sampleZero 3).rpm = JVal.null := by
  refine ⟨rfl, ?_, rfl⟩
  rfl

/-- C8 (amended): the REST handler passes every reading through with its
original value (absent stays absent, `null` stays `null`, values intact);
the socket handler maps each reading through `x || null`, which keeps any
truthy (non-zero) number, turns absent and `null` into `null`, but also
coerces a present `0` to `null`. -/
theorem c8_reading_passthrough (d : Sample) (now : Nat) :
    ((restPerformanceData d).rpm = d.rpm
      ∧ (restPerformanceData d).speed = d.speed
      ∧ (restPerformanceData d).batteryVoltage = d.batteryVoltage
      ∧ (restPerformanceData d).fuelTankLevel = d.fuelTankLevel
      ∧ (restPerformanceData d).intakeAirTemp = d.intakeAirTemp
      ∧ (restPerformanceData d).coolantTemp = d.coolantTemp
      ∧ (restPerformanceData d).engineTemp = d.engineTemp
      ∧ (restPerformanceData d).fuelConsumption = d.fuelConsumption)
    ∧ ((socketPerformanceData d now).rpm = d.rpm.orNull
      ∧ (socketPerformanceData d now).speed = d.speed.orNull
      ∧ (socketPerformanceData d now).batteryVoltage = d.batteryVoltage.orNull
      ∧ (socketPerformanceData d now).fuelTankLevel = d.fuelTankLevel.orNull
      ∧ (socketPerformanceData d now).intakeAirTemp = d.intakeAirTemp.orNull
      ∧ (socketPerformanceData d now).coolantTemp = d.coolantTemp.orNull
      ∧ (socketPerformanceData d now).engineTemp = d.engineTemp.orNull
      ∧ (socketPerformanceData d now).fuelConsumption = d.fuelConsumption.orNull)
    ∧ (∀ n : Int, n ≠ 0 → (JVal.num n).orNull = JVal.num n)
    ∧ JVal.undef.orNull = JVal.null
    ∧ JVal.null.orNull = JVal.null
    ∧ (JVal.num 0).orNull = JVal.null := by
  refine ⟨⟨rfl, rfl, rfl, rfl, rfl, rfl, rfl, rfl⟩,
    ⟨rfl, rfl, rfl, rfl, rfl, rfl, rfl, rfl⟩, ?_, rfl, rfl, rfl⟩
  intro n hn
  simp [JVal.orNull, JVal.truthy, hn]

/-- C8 witness: the present non-zero reading `2500` survives both the
REST pass-through and the socket `|| null` coercion. -/
theorem c8_witness :
    (restPerformanceData sampleA).rpm = JVal.num 2500
    ∧ (JVal.num 2500).orNull = JVal.num 2500 := by
  have h := c8_reading_passthrough sampleA 3
  exact ⟨h.1.1, h.2.2.1 2500 (by decide)⟩

/-- A concrete sample that carries its own timestamp (`5`). -/
def sampleTs : Sample :=
  { sampleA with timestamp := JVal.num 5 }

/-- C9, as stated, is false: the socket handler assigns the server clock
(here `7`) as the persisted timestamp even when the incoming sample
carries its own timestamp (here `5`); the incoming timestamp is never
kept. -/
theorem c9_counterexample :
    sampleTs.timestamp = JVal.num 5
    ∧ ((handlePerformanceData [] sampleTs 7 false).persisted.map
        PerfRecord.timestamp) = some 7 := by
  refine ⟨rfl, ?_⟩
  rfl

/-- C9 (amended): the persisted timestamp of a socket ingest is always
server-assigned at ingest time; the incoming sample's own timestamp field
has no influence on the row built for insertion. -/
theorem c9_server_timestamp (r : Registry) (d : Sample) (now : Nat)
    (h : d.vehicle_id ≠ "") :
    (handlePerformanceData r d now false).persisted
        = some (socketPerformanceData d now)
    ∧ (socketPerformanceData d now).timestamp = now
    ∧ ∀ t : JVal, socketPerformanceData { d with timestamp := t } now
        = socketPerformanceData d now := by
  refine ⟨?_, rfl, fun t => rfl⟩
  unfold handlePerformanceData
  rw [if_neg h]
  rfl

/-- C9 witness: the concrete sample for `"v1"` is persisted with the
server clock value `7`. -/
theorem c9_witness :
    (handlePerformanceData [] sampleA 7 false).persisted
      = some (socketPerformanceData sampleA 7) := by
  have h := c9_server_timestamp [] sampleA 7 (by decide)
  exact h.1

/-- C10: an `unsubscribe-vehicle` event with a missing/empty vehicle id
is silently ignored — the registry is unchanged and no reply event of any
kind is emitted — whereas `subscribe-vehicle` with a missing vehicle id
emits an `error` event (and also leaves the registry unchanged). -/
theorem c10_empty_vehicle_id (r : Registry) (sid : ConnId) :
    handleUnsubscribe r sid "" = (r, [])
    ∧ handleSubscribe r sid ""
        = (r, [SockEvent.errorEvt "Vehicle ID is required"]) := by
  exact ⟨rfl, rfl⟩

end EasyRep
